import Mathlib

/-!
Shallow embedding of the emissary health-check core.

Source files embedded:
- `src/pkg/acp/envoy.go` — the `EnvoyWatcher` (probe state machine).
- `src/cmd/entrypoint/healthcheck_server.go` — the probe handlers, the
  reverse-proxy director, and the listen/serve/shutdown control flow.

Go machine state is made explicit: the watcher is its single guarded data
element, a probe call is a state transformer parameterised by the fetcher
outcome of that call, and Go nil-pointer panics are modelled as `none`.
-/

namespace Emissary

/-- Go struct `EnvoyFetcherResponse` (envoy.go): status code plus the response
body bytes. -/
structure EnvoyFetcherResponse where
  StatusCode : Int
  Text : List Nat
deriving DecidableEq

/-- One outcome of a Go `envoyFetcher` call: the Go return pair
`(*EnvoyFetcherResponse, error)`. Both components are independently nilable
in Go (a pointer and an interface), so both are `Option` here. -/
structure FetcherOutcome where
  response : Option EnvoyFetcherResponse
  err : Option String
deriving DecidableEq

/-- Observable state of a Go `EnvoyWatcher` (envoy.go lines 38-48): the single
data element guarded by its mutex. The mutex and the stored fetcher function
are not part of the observable state; each probe takes the fetcher outcome of
that call as an argument. -/
structure EnvoyWatcher where
  LastSucceeded : Bool
deriving DecidableEq

/-- Go `NewEnvoyWatcher` (envoy.go lines 50-56): `&EnvoyWatcher{}` leaves
`LastSucceeded` at the Go zero value `false`; the constructor then only
installs the default fetcher. -/
def NewEnvoyWatcher : EnvoyWatcher :=
  { LastSucceeded := false }

/-- Go `(*EnvoyWatcher).FetchEnvoyStats` (envoy.go lines 110-130), as a state
transformer on the watcher state given the fetcher outcome of this call.
`succeeded` starts `false`; with a nil error and status 200 it becomes `true`;
with a non-nil error the failure is logged at debug level and recorded.
`none` models the Go nil-pointer panic that occurs when the fetcher returns a
nil response together with a nil error (line 120 dereferences
`statsResponse.StatusCode`). -/
def FetchEnvoyStats (w : EnvoyWatcher) (o : FetcherOutcome) : Option EnvoyWatcher :=
  match o.err with
  | none =>
      match o.response with
      | some statsResponse =>
          some { w with LastSucceeded := statsResponse.StatusCode == 200 }
      | none => none
  | some _ => some { w with LastSucceeded := false }

/-- Go `(*EnvoyWatcher).IsAlive` (envoy.go lines 132-140): returns
`LastSucceeded` under the lock. -/
def EnvoyWatcher.IsAlive (w : EnvoyWatcher) : Bool :=
  w.LastSucceeded

/-- Go `(*EnvoyWatcher).IsReady` (envoy.go lines 142-146): a distinct method
that currently returns `w.IsAlive()`. -/
def EnvoyWatcher.IsReady (w : EnvoyWatcher) : Bool :=
  w.IsAlive

/-- Environment of one `defaultFetcher` call (envoy.go lines 60-100): the
error results of building the request, performing the round trip, and fully
reading the response body, together with the status code and body bytes
delivered when the respective step succeeds. -/
structure HttpWorld where
  buildErr : Option String
  doErr : Option String
  statusCode : Int
  readErr : Option String
  bodyBytes : List Nat
deriving DecidableEq

/-- Go `(*EnvoyWatcher).defaultFetcher` (envoy.go lines 60-100): each failing
step returns a wrapped error together with a nil response; only when building
the request, the round trip and the body read all succeed is a complete
response returned together with a nil error. -/
def defaultFetcher (wld : HttpWorld) : FetcherOutcome :=
  match wld.buildErr with
  | some e => { response := none, err := some ("error creating request: " ++ e) }
  | none =>
      match wld.doErr with
      | some e => { response := none, err := some ("error fetching stats: " ++ e) }
      | none =>
          match wld.readErr with
          | some e => { response := none, err := some ("error reading body: " ++ e) }
          | none =>
              { response := some { StatusCode := wld.statusCode, Text := wld.bodyBytes },
                err := none }

/-- HTTP response as rendered by a probe handler: the status code written and
the full body as finally put on the wire. -/
structure HttpResponse where
  statusCode : Nat
  body : String
deriving DecidableEq

/-- Go `http.Error` (net/http): sets the given status code and writes the
message followed by a newline (`fmt.Fprintln`). -/
def httpError (msg : String) (code : Nat) : HttpResponse :=
  { statusCode := code, body := msg ++ "\n" }

/-- Modelled from the spec: the handlers take an `acp.AmbassadorWatcher`,
code of this repository that is not under src/. Per the spec the Watcher owns
the single boolean HealthState and exposes Probe, IsAlive and IsReady exactly
as in spec section 4.1, which is the `EnvoyWatcher` state embedded above. -/
abbrev AmbassadorWatcher := EnvoyWatcher

/-- Go `handleCheckAlive` (healthcheck_server.go lines 16-28): force a fresh
probe, then render 200 with a confirmatory body via `w.Write`, or 503 via
`http.Error`, from `IsAlive`. `none` propagates a panic of the probe call. -/
def handleCheckAlive (ambwatch : AmbassadorWatcher) (o : FetcherOutcome) :
    Option (AmbassadorWatcher × HttpResponse) :=
  match FetchEnvoyStats ambwatch o with
  | none => none
  | some w =>
      if w.IsAlive then
        some (w, { statusCode := 200, body := "Ambassador is alive and well\n" })
      else
        some (w, httpError "Ambassador is not alive\n" 503)

/-- Go `handleCheckReady` (healthcheck_server.go lines 30-45): force a fresh
probe, then render 200 with a confirmatory body via `w.Write`, or 503 via
`http.Error`, from `IsReady`. `none` propagates a panic of the probe call. -/
def handleCheckReady (ambwatch : AmbassadorWatcher) (o : FetcherOutcome) :
    Option (AmbassadorWatcher × HttpResponse) :=
  match FetchEnvoyStats ambwatch o with
  | none => none
  | some w =>
      if w.IsReady then
        some (w, { statusCode := 200, body := "Ambassador is ready and waiting\n" })
      else
        some (w, httpError "Ambassador is not ready\n" 503)

/-- Number of consecutive newline characters at the end of a string. -/
def trailingNewlines (s : String) : Nat :=
  (s.data.reverse.takeWhile (fun c => c == '\n')).length

/-- Fields of a Go `url.URL` relevant to the reverse-proxy director. -/
structure URL where
  scheme : String
  host : String
  path : String
  query : String
deriving DecidableEq

/-- Fields of a Go `http.Request` relevant to the reverse-proxy director: the
target URL, method, body, headers, and the connection's remote address. -/
structure Request where
  url : URL
  method : String
  body : List Nat
  headers : List (String × String)
  remoteAddr : String
deriving DecidableEq

/-- Result of Go `url.Parse("http://127.0.0.1:8004/")`, the diagd origin
(healthcheck_server.go line 65). -/
def diagdOrigin : URL :=
  { scheme := "http", host := "127.0.0.1:8004", path := "/", query := "" }

/-- Go `http.Header.Set`: replace any existing values for the key with the
single given value. -/
def headerSet (hs : List (String × String)) (k v : String) : List (String × String) :=
  (k, v) :: hs.filter (fun p => p.1 != k)

/-- Value the request carries for a header key, when any. -/
def headerGet (hs : List (String × String)) (k : String) : Option String :=
  (hs.find? (fun p => p.1 == k)).map Prod.snd

/-- Host part of a Go `host:port` remote-address string: everything before
the last colon (the whole string when there is no colon), with any IPv6
brackets removed. -/
def hostOf (addr : String) : List Char :=
  let cs := addr.data
  let host :=
    if cs.contains ':' then ((cs.reverse.dropWhile (fun c => c != ':')).drop 1).reverse
    else cs
  host.filter (fun c => c != '[' && c != ']')

/-- Modelled from the spec: `acp.HostPortIsLocal` is code of this repository
that is not under src/. Per the spec it decides whether the inbound request's
remote address (a `host:port` string) has a loopback host. -/
def HostPortIsLocal (hostPort : String) : Bool :=
  let host := hostOf hostPort
  host == ([':', ':', '1'] : List Char) || host.take 4 == (['1', '2', '7', '.'] : List Char)

/-- Go reverse-proxy director (healthcheck_server.go lines 71-81): swap the
URL scheme and host for the diagd origin's and, when the remote address is
local, set the `X-Ambassador-Diag-IP` header to `127.0.0.1`. Everything else
is left alone. -/
def director (req : Request) : Request :=
  let req1 := { req with
    url := { req.url with scheme := diagdOrigin.scheme, host := diagdOrigin.host } }
  if HostPortIsLocal req1.remoteAddr then
    { req1 with headers := headerSet req1.headers "X-Ambassador-Diag-IP" "127.0.0.1" }
  else
    req1

/-- Termination of one run of Go `healthCheckHandler`: either a panic with a
given message, or a normal return after a clean shutdown. -/
inductive ServerOutcome where
  | panicked (msg : String)
  | exited
deriving DecidableEq

/-- Bound in seconds on the graceful shutdown (healthcheck_server.go
line 120). -/
def shutdownTimeoutSeconds : Nat := 10

/-- Control flow of Go `healthCheckHandler` around listen and shutdown
(healthcheck_server.go lines 97-127): a bind error panics immediately;
otherwise the server runs until cancellation, and a non-nil error from the
bounded graceful shutdown panics; a nil shutdown error returns normally. -/
def healthCheckHandler (bindErr : Option String) (shutdownErr : Option String) :
    ServerOutcome :=
  match bindErr with
  | some e => ServerOutcome.panicked ("could not listen on TCP port 8877: " ++ e)
  | none =>
      match shutdownErr with
      | some e => ServerOutcome.panicked e
      | none => ServerOutcome.exited

end Emissary

namespace Emissary

/-- C1: immediately after `FetchEnvoyStats` returns, `IsAlive` and `IsReady`
are both true iff the fetcher returned a nil error and a response with status
code exactly 200; any non-nil error or any other status code makes both
false, for every prior watcher state. -/
theorem fetchEnvoyStats_alive_iff_status200 (w w' : EnvoyWatcher) (o : FetcherOutcome)
    (h : FetchEnvoyStats w o = some w') :
    (w'.IsAlive = true ∧ w'.IsReady = true) ↔
      (o.err = none ∧ ∃ r, o.response = some r ∧ r.StatusCode = 200) := by
  obtain ⟨resp, err⟩ := o
  cases err with
  | some e =>
      simp only [FetchEnvoyStats, Option.some.injEq] at h
      subst h
      simp [EnvoyWatcher.IsAlive, EnvoyWatcher.IsReady]
  | none =>
      cases resp with
      | none => simp [FetchEnvoyStats] at h
      | some r =>
          simp only [FetchEnvoyStats, Option.some.injEq] at h
          subst h
          constructor
          · rintro ⟨ha, -⟩
            refine ⟨rfl, r, rfl, ?_⟩
            simpa [EnvoyWatcher.IsAlive] using ha
          · rintro ⟨-, r', hr', h200⟩
            obtain rfl : r' = r := by
              injection hr' with h
              exact h.symm
            simp [EnvoyWatcher.IsAlive, EnvoyWatcher.IsReady, h200]

/-- Witness for C1: a concrete probe whose fetcher returns status 200 makes
both queries true. -/
theorem fetchEnvoyStats_alive_iff_status200_witness :
    (EnvoyWatcher.IsAlive ⟨true⟩ = true ∧ EnvoyWatcher.IsReady ⟨true⟩ = true) ↔
      ((none : Option String) = none ∧
        ∃ r, (some ⟨200, []⟩ : Option EnvoyFetcherResponse) = some r ∧
          r.StatusCode = 200) :=
  fetchEnvoyStats_alive_iff_status200 ⟨false⟩ ⟨true⟩ ⟨some ⟨200, []⟩, none⟩ rfl

/-- C2: a freshly constructed watcher, before any probe, reports not alive and
not ready (fail-closed initial state). -/
theorem newEnvoyWatcher_fail_closed :
    NewEnvoyWatcher.IsAlive = false ∧ NewEnvoyWatcher.IsReady = false :=
  ⟨rfl, rfl⟩

/-- Counterexample for C3: on the fetcher outcome with a nil response and a
nil error, `FetchEnvoyStats` does not return normally (it panics
dereferencing the nil response), refuting that it returns normally for every
fetcher outcome. -/
theorem fetchEnvoyStats_not_total :
    FetchEnvoyStats ⟨true⟩ ⟨none, none⟩ = none :=
  rfl

/-- C3 (amended): for every fetcher outcome in which the response or the
error is non-nil, `FetchEnvoyStats` returns normally (in particular it never
propagates a fetcher error), and the result is a function of that single
outcome alone, independent of the prior watcher state. -/
theorem fetchEnvoyStats_no_error_propagation (o : FetcherOutcome) (w w2 : EnvoyWatcher)
    (h : o.response.isSome = true ∨ o.err.isSome = true) :
    (FetchEnvoyStats w o).isSome = true ∧ FetchEnvoyStats w o = FetchEnvoyStats w2 o := by
  obtain ⟨resp, err⟩ := o
  cases err <;> cases resp <;> simp_all [FetchEnvoyStats]

/-- Witness for C3 (amended): a concrete erroring fetch returns normally and
yields the same result from two different prior states. -/
theorem fetchEnvoyStats_no_error_propagation_witness :
    (FetchEnvoyStats ⟨true⟩ ⟨none, some "connection refused"⟩).isSome = true ∧
      FetchEnvoyStats ⟨true⟩ ⟨none, some "connection refused"⟩ =
        FetchEnvoyStats ⟨false⟩ ⟨none, some "connection refused"⟩ :=
  fetchEnvoyStats_no_error_propagation ⟨none, some "connection refused"⟩ ⟨true⟩ ⟨false⟩
    (Or.inr rfl)

/-- C4: for every watcher state, `IsReady` returns exactly the value of
`IsAlive`, while being a distinct operation. -/
theorem isReady_eq_isAlive (w : EnvoyWatcher) :
    w.IsReady = w.IsAlive :=
  rfl

/-- Counterexample for C5: on a failing probe, the 503 body written by
`http.Error` ends in two newline characters, not exactly one, because
`http.Error` appends a newline to the already newline-terminated message. -/
theorem handleCheckAlive_two_trailing_newlines :
    handleCheckAlive ⟨true⟩ ⟨none, some "boom"⟩ =
      some (⟨false⟩, ⟨503, "Ambassador is not alive\n\n"⟩) ∧
    trailingNewlines "Ambassador is not alive\n\n" = 2 := by
  exact ⟨rfl, rfl⟩

/-- C5 (amended): each probe handler first forces a fresh probe call and then
renders from the resulting watcher state: HTTP 200 with a body ending in
exactly one newline when the watcher reports healthy, and HTTP 503 with a
body ending in exactly two newlines when it reports unhealthy. -/
theorem handlers_fresh_probe_then_render (amb wa wr : AmbassadorWatcher)
    (o : FetcherOutcome) (ra rr : HttpResponse)
    (ha : handleCheckAlive amb o = some (wa, ra))
    (hr : handleCheckReady amb o = some (wr, rr)) :
    FetchEnvoyStats amb o = some wa ∧
    FetchEnvoyStats amb o = some wr ∧
    (wa.IsAlive = true → ra.statusCode = 200 ∧ trailingNewlines ra.body = 1) ∧
    (wa.IsAlive = false → ra.statusCode = 503 ∧ trailingNewlines ra.body = 2) ∧
    (wr.IsReady = true → rr.statusCode = 200 ∧ trailingNewlines rr.body = 1) ∧
    (wr.IsReady = false → rr.statusCode = 503 ∧ trailingNewlines rr.body = 2) := by
  cases hfe : FetchEnvoyStats amb o with
  | none =>
      unfold handleCheckAlive at ha
      rw [hfe] at ha
      exact Option.noConfusion ha
  | some w =>
      have ea : handleCheckAlive amb o =
          if w.IsAlive then
            some (w, (⟨200, "Ambassador is alive and well\n"⟩ : HttpResponse))
          else some (w, httpError "Ambassador is not alive\n" 503) := by
        unfold handleCheckAlive
        rw [hfe]
      have er : handleCheckReady amb o =
          if w.IsReady then
            some (w, (⟨200, "Ambassador is ready and waiting\n"⟩ : HttpResponse))
          else some (w, httpError "Ambassador is not ready\n" 503) := by
        unfold handleCheckReady
        rw [hfe]
      rw [ea] at ha
      rw [er] at hr
      have hready : w.IsReady = w.IsAlive := rfl
      rw [hready] at hr
      cases hb : w.IsAlive with
      | true =>
          rw [hb] at ha hr
          simp at ha hr
          obtain ⟨rfl, rfl⟩ := ha
          obtain ⟨rfl, rfl⟩ := hr
          refine ⟨rfl, rfl, fun _ => ⟨rfl, by decide⟩, fun hf => ?_,
            fun _ => ⟨rfl, by decide⟩, fun hf => ?_⟩
          · rw [hb] at hf
            exact Bool.noConfusion hf
          · rw [hready, hb] at hf
            exact Bool.noConfusion hf
      | false =>
          rw [hb] at ha hr
          simp at ha hr
          obtain ⟨rfl, rfl⟩ := ha
          obtain ⟨rfl, rfl⟩ := hr
          refine ⟨rfl, rfl, fun hf => ?_, fun _ => ⟨rfl, by decide⟩,
            fun hf => ?_, fun _ => ⟨rfl, by decide⟩⟩
          · rw [hb] at hf
            exact Bool.noConfusion hf
          · rw [hready, hb] at hf
            exact Bool.noConfusion hf

/-- Witness for C5 (amended): concrete rendering of both handlers after a
successful probe with status 200. -/
theorem handlers_fresh_probe_then_render_witness :
    FetchEnvoyStats NewEnvoyWatcher ⟨some ⟨200, []⟩, none⟩ = some ⟨true⟩ ∧
    FetchEnvoyStats NewEnvoyWatcher ⟨some ⟨200, []⟩, none⟩ = some ⟨true⟩ ∧
    (EnvoyWatcher.IsAlive ⟨true⟩ = true →
      (⟨200, "Ambassador is alive and well\n"⟩ : HttpResponse).statusCode = 200 ∧
      trailingNewlines (⟨200, "Ambassador is alive and well\n"⟩ : HttpResponse).body = 1) ∧
    (EnvoyWatcher.IsAlive ⟨true⟩ = false →
      (⟨200, "Ambassador is alive and well\n"⟩ : HttpResponse).statusCode = 503 ∧
      trailingNewlines (⟨200, "Ambassador is alive and well\n"⟩ : HttpResponse).body = 2) ∧
    (EnvoyWatcher.IsReady ⟨true⟩ = true →
      (⟨200, "Ambassador is ready and waiting\n"⟩ : HttpResponse).statusCode = 200 ∧
      trailingNewlines (⟨200, "Ambassador is ready and waiting\n"⟩ : HttpResponse).body = 1) ∧
    (EnvoyWatcher.IsReady ⟨true⟩ = false →
      (⟨200, "Ambassador is ready and waiting\n"⟩ : HttpResponse).statusCode = 503 ∧
      trailingNewlines (⟨200, "Ambassador is ready and waiting\n"⟩ : HttpResponse).body = 2) :=
  handlers_fresh_probe_then_render NewEnvoyWatcher ⟨true⟩ ⟨true⟩ ⟨some ⟨200, []⟩, none⟩
    ⟨200, "Ambassador is alive and well\n"⟩ ⟨200, "Ambassador is ready and waiting\n"⟩
    rfl rfl

/-- C6: the director rewrites only the URL scheme and host, to those of the
diagd origin; the path, query string, method, body, and remote address all
pass through unchanged. -/
theorem director_rewrites_only_scheme_host (req : Request) :
    (director req).url.scheme = diagdOrigin.scheme ∧
    (director req).url.host = diagdOrigin.host ∧
    (director req).url.path = req.url.path ∧
    (director req).url.query = req.url.query ∧
    (director req).method = req.method ∧
    (director req).body = req.body ∧
    (director req).remoteAddr = req.remoteAddr := by
  unfold director
  dsimp only
  split <;> simp

/-- Helper: setting a header makes it present with the given value. -/
theorem headerGet_headerSet (hs : List (String × String)) (k v : String) :
    headerGet (headerSet hs k v) k = some v := by
  simp [headerGet, headerSet]

/-- Counterexample for C7: an inbound request from a non-loopback remote that
already carries `X-Ambassador-Diag-IP` is forwarded still carrying it, so the
forwarded request carries the header without the inbound remote address being
loopback. -/
theorem director_marker_spoofable :
    HostPortIsLocal "10.0.0.1:55555" = false ∧
    headerGet (director
        { url := ⟨"http", "example.com", "/x", ""⟩, method := "GET", body := [],
          headers := [("X-Ambassador-Diag-IP", "127.0.0.1")],
          remoteAddr := "10.0.0.1:55555" }).headers
      "X-Ambassador-Diag-IP" = some "127.0.0.1" := by
  constructor
  · rfl
  · rfl

/-- C7 (amended): when the inbound remote address is loopback, the forwarded
request carries `X-Ambassador-Diag-IP: 127.0.0.1`; when it is not loopback,
the headers pass through unchanged, so the forwarded request carries the
header only if the inbound request already carried it. -/
theorem director_local_marker (req : Request) :
    (HostPortIsLocal req.remoteAddr = true →
      headerGet (director req).headers "X-Ambassador-Diag-IP" = some "127.0.0.1") ∧
    (HostPortIsLocal req.remoteAddr = false →
      (director req).headers = req.headers) := by
  constructor
  · intro h
    unfold director
    dsimp only
    rw [if_pos h]
    exact headerGet_headerSet ..
  · intro h
    unfold director
    dsimp only
    rw [h]
    simp

/-- Witness for C7 (amended): a loopback client gets the marker set; a
non-loopback client's headers pass through unchanged. -/
theorem director_local_marker_witness :
    headerGet (director
        { url := ⟨"http", "example.com", "/x", ""⟩, method := "GET", body := [],
          headers := [], remoteAddr := "127.0.0.1:54321" }).headers
      "X-Ambassador-Diag-IP" = some "127.0.0.1" ∧
    (director
        { url := ⟨"http", "example.com", "/x", ""⟩, method := "GET", body := [],
          headers := [], remoteAddr := "10.0.0.1:54321" }).headers = [] :=
  ⟨(director_local_marker
      { url := ⟨"http", "example.com", "/x", ""⟩, method := "GET", body := [],
        headers := [], remoteAddr := "127.0.0.1:54321" }).1 (by decide),
   (director_local_marker
      { url := ⟨"http", "example.com", "/x", ""⟩, method := "GET", body := [],
        headers := [], remoteAddr := "10.0.0.1:54321" }).2 (by decide)⟩

/-- C8: the default fetcher returns either a complete response (the delivered
status code and fully read body) with a nil error, or a nil response with a
non-nil error; any failure to build the request, perform the round trip, or
fully read the body yields the error form, never a partial response. -/
theorem defaultFetcher_complete_or_error (wld : HttpWorld) :
    (wld.buildErr = none ∧ wld.doErr = none ∧ wld.readErr = none →
      defaultFetcher wld =
        { response := some { StatusCode := wld.statusCode, Text := wld.bodyBytes },
          err := none }) ∧
    (wld.buildErr ≠ none ∨ wld.doErr ≠ none ∨ wld.readErr ≠ none →
      (defaultFetcher wld).response = none ∧ (defaultFetcher wld).err ≠ none) := by
  obtain ⟨b, d, st, r, bb⟩ := wld
  cases b <;> cases d <;> cases r <;> simp [defaultFetcher]

/-- Witness for C8: a fully successful fetch returns the complete response,
and a round-trip failure returns the error form. -/
theorem defaultFetcher_complete_or_error_witness :
    defaultFetcher ⟨none, none, 200, none, [7]⟩ =
      { response := some { StatusCode := 200, Text := [7] }, err := none } ∧
    (defaultFetcher ⟨none, some "connection refused", 0, none, []⟩).response = none ∧
    (defaultFetcher ⟨none, some "connection refused", 0, none, []⟩).err ≠ none :=
  ⟨(defaultFetcher_complete_or_error ⟨none, none, 200, none, [7]⟩).1 ⟨rfl, rfl, rfl⟩,
   (defaultFetcher_complete_or_error ⟨none, some "connection refused", 0, none, []⟩).2
     (Or.inr (Or.inl (by decide)))⟩

/-- C9: a listener bind failure panics immediately with the bind message, and
a non-nil error from the graceful shutdown bounded by `shutdownTimeoutSeconds`
(10 seconds) panics as well; on those paths the server routine never reaches a
normal exit. -/
theorem healthCheckHandler_fatal_errors :
    (∀ e sd, healthCheckHandler (some e) sd =
        ServerOutcome.panicked ("could not listen on TCP port 8877: " ++ e)) ∧
    (∀ e, healthCheckHandler none (some e) = ServerOutcome.panicked e) ∧
    shutdownTimeoutSeconds = 10 :=
  ⟨fun _ _ => rfl, fun _ => rfl, rfl⟩

/-- C10: a nil response with a non-nil error is handled safely as a failure;
`FetchEnvoyStats` returns normally whenever every nil-error outcome carries a
non-nil response, while on the nil-response nil-error outcome it does not
return (nil dereference), so that precondition is exactly what freedom from
the nil dereference requires. -/
theorem fetchEnvoyStats_nil_safety :
    (∀ (e : String) (w : EnvoyWatcher),
        FetchEnvoyStats w ⟨none, some e⟩ = some { w with LastSucceeded := false }) ∧
    (∀ (o : FetcherOutcome) (w : EnvoyWatcher),
        (o.err = none → o.response.isSome = true) → (FetchEnvoyStats w o).isSome = true) ∧
    (∀ w : EnvoyWatcher, FetchEnvoyStats w ⟨none, none⟩ = none) := by
  refine ⟨fun e w => rfl, fun o w h => ?_, fun w => rfl⟩
  obtain ⟨resp, err⟩ := o
  cases err with
  | none =>
      have hs := h rfl
      cases resp with
      | none => exact Bool.noConfusion hs
      | some r => rfl
  | some e => rfl

/-- Witness for C10: a fetcher outcome with a non-nil response and a nil
error makes the probe return normally. -/
theorem fetchEnvoyStats_nil_safety_witness :
    (FetchEnvoyStats ⟨false⟩ ⟨some ⟨503, []⟩, none⟩).isSome = true :=
  fetchEnvoyStats_nil_safety.2.1 ⟨some ⟨503, []⟩, none⟩ ⟨false⟩ (fun _ => rfl)

end Emissary